import Mathlib

/-!
Shallow embedding of `src/load_sqlite.py`, the Epic EHI export loader.

The pure parts of the script (type mapping, value coercion, DDL generation,
table naming, the per-table batch construction and the fallback insert loop,
and the accounting of the main loop) are translated into executable Lean
definitions.  Python builtins used by the script (`str.strip`, `str.replace`,
`int(str)`, `float(str)`) are modelled explicitly for ASCII text; `float`
parsing is modelled with exact rational arithmetic (IEEE-754 rounding is not
modelled, which is exact for the short decimal literals considered here).
Database side effects (`sqlite3` calls) are modelled by success/failure
oracles carried in the per-table input, and exceptions are modelled with
`Except`.
-/

set_option maxRecDepth 4000

namespace LoadSqlite

/-! ### Python string primitives -/

/-- Python whitespace characters stripped by `str.strip()` (ASCII subset). -/
def pyWS (c : Char) : Bool :=
  c == ' ' || c == '\t' || c == '\n' || c == '\r' || c == '\x0b' || c == '\x0c'

/-- Model of `str.strip()` on a character list. -/
def pyStripL (cs : List Char) : List Char :=
  ((cs.dropWhile pyWS).reverse.dropWhile pyWS).reverse

/-- Model of `str.strip()`. -/
def pyStrip (s : String) : String := String.mk (pyStripL s.toList)

/-- Fuelled worker for `str.replace`: replaces occurrences of `pat`
left-to-right, non-overlapping, exactly as Python does.  The fuel is the
length of the scanned list, so it never runs out for nonempty `pat`;
this embedding is only ever used with nonempty patterns. -/
def replFuel (pat rep : List Char) : Nat → List Char → List Char
  | 0, s => s
  | _ + 1, [] => []
  | fuel + 1, c :: rest =>
    if pat.isPrefixOf (c :: rest) then
      rep ++ replFuel pat rep fuel (rest.drop (pat.length - 1))
    else
      c :: replFuel pat rep fuel rest

/-- Model of Python `str.replace(pat, rep)` on character lists. -/
def listReplace (pat rep s : List Char) : List Char := replFuel pat rep s.length s

/-- Model of Python `s.replace(pat, rep)` on strings. -/
def pyReplaceS (s pat rep : String) : String :=
  String.mk (listReplace pat.toList rep.toList s.toList)

/-- Whether `pat` occurs as a contiguous substring. -/
def hasSubstr (pat : List Char) : List Char → Bool
  | [] => pat.isEmpty
  | c :: rest => pat.isPrefixOf (c :: rest) || hasSubstr pat rest

/-- Decimal value of a digit list. -/
def digitsVal (cs : List Char) : Nat := cs.foldl (fun a c => a * 10 + (c.toNat - 48)) 0

/-- Python numeric literals allow single underscores between digits
(PEP 515).  Removes legal underscores; an illegal underscore fails. -/
def remUnd : List Char → Option (List Char)
  | [] => some []
  | d :: '_' :: c :: rest =>
    if d.isDigit && c.isDigit then (remUnd (c :: rest)).map (fun l => d :: l) else none
  | c :: rest => if c == '_' then none else (remUnd rest).map (fun l => c :: l)

/-- Splits an optional leading sign; returns (isNegative, rest). -/
def splitSign : List Char → Bool × List Char
  | '-' :: r => (true, r)
  | '+' :: r => (false, r)
  | r => (false, r)

/-- Model of Python `int(s)` for base-10 ASCII strings: strips whitespace,
optional sign, digits with optional PEP-515 underscores; `none` models a
raised `ValueError`. -/
def pyIntParse (s : String) : Option Int :=
  let cs := pyStripL s.toList
  let sb := splitSign cs
  match remUnd sb.2 with
  | none => none
  | some ds =>
    if !ds.isEmpty && ds.all Char.isDigit then
      some (if sb.1 then -(digitsVal ds : Int) else (digitsVal ds : Int))
    else none

/-- Result of Python `float(s)`: a finite value (modelled exactly as a
rational), an infinity, or a NaN. -/
inductive PyFloat where
  | finite (q : ℚ)
  | posinf
  | neginf
  | nan
  deriving DecidableEq, Repr

/-- Exponent digits of a float literal. -/
def expDigitsVal (ds : List Char) : Option Int :=
  if !ds.isEmpty && ds.all Char.isDigit then some ((digitsVal ds : Int)) else none

/-- Optional exponent part of a float literal (empty, or `e`/`E` then a
signed digit string). -/
def parseExpPart : List Char → Option Int
  | [] => some 0
  | c :: rest =>
    if c == 'e' || c == 'E' then
      match rest with
      | '+' :: ds => expDigitsVal ds
      | '-' :: ds => (expDigitsVal ds).map (fun e => -e)
      | ds => expDigitsVal ds
    else none

/-- Applies a decimal exponent to an unreduced fraction
(absolute numerator, denominator). -/
def applyExp (n d : Nat) (e : Int) : Nat × Nat :=
  if 0 ≤ e then (n * 10 ^ e.toNat, d) else (n, d * 10 ^ (-e).toNat)

/-- Finite float literal after sign and underscore handling:
`digits [. digits] [exp]` or `. digits [exp]`.  Returns the value as an
unreduced fraction (absolute numerator, denominator). -/
def parseFin (cs : List Char) : Option (Nat × Nat) :=
  let ip := cs.takeWhile Char.isDigit
  let r1 := cs.dropWhile Char.isDigit
  match r1 with
  | '.' :: r2 =>
    let fp := r2.takeWhile Char.isDigit
    let r3 := r2.dropWhile Char.isDigit
    if ip.isEmpty && fp.isEmpty then none
    else (parseExpPart r3).map
      (fun e => applyExp (digitsVal (ip ++ fp)) (10 ^ fp.length) e)
  | r2 =>
    if ip.isEmpty then none
    else (parseExpPart r2).map (fun e => applyExp (digitsVal ip) 1 e)

/-- Model of Python `float(s)` for ASCII strings; `none` models a raised
`ValueError`.  Finite values are exact rationals. -/
def pyFloatParse (s : String) : Option PyFloat :=
  let cs := pyStripL s.toList
  let sb := splitSign cs
  let lower := sb.2.map Char.toLower
  if lower == ['i', 'n', 'f'] || lower == ['i', 'n', 'f', 'i', 'n', 'i', 't', 'y'] then
    some (if sb.1 then PyFloat.neginf else PyFloat.posinf)
  else if lower == ['n', 'a', 'n'] then some PyFloat.nan
  else
    match remUnd sb.2 with
    | none => none
    | some clean =>
      match parseFin clean with
      | none => none
      | some nd =>
        some (PyFloat.finite (mkRat (if sb.1 then -(nd.1 : Int) else (nd.1 : Int)) nd.2))

/-- Truncation toward zero, the behaviour of Python `int(f)` on a finite
float. -/
def ratTrunc (q : ℚ) : Int := q.num.tdiv (q.den : Int)

/-! ### The source's data model -/

/-- The `TYPE_MAP` dict of `load_sqlite.py` (lines 28-37). -/
def TYPE_MAP : List (String × String) :=
  [("VARCHAR", "TEXT"), ("NUMERIC", "NUMERIC"), ("INTEGER", "INTEGER"), ("FLOAT", "REAL"),
   ("DATETIME", "TEXT"), ("DATETIME (Local)", "TEXT"), ("DATETIME (UTC)", "TEXT"),
   ("DATETIME (Attached)", "TEXT")]

/-- `TYPE_MAP.get(label, 'TEXT')` as used at lines 63 and 155. -/
def typeMapGet (label : String) : String := (TYPE_MAP.lookup label).getD "TEXT"

/-- `esc` (lines 40-43): sanitizes a description for use in a SQL comment.
The replacement text for `--` is the literal three-character mojibake
sequence present in the source file. -/
def esc (text : String) : String :=
  if text = "" then ""
  else pyReplaceS (pyReplaceS (pyReplaceS text "--" "â€”") "\n" " ") "\r" ""

/-- One entry of a schema descriptor's `columns` list: `name` is required
(`col['name']`), `type` and `description` are optional (`col.get(...)`). -/
structure ColDescr where
  name : String
  type : Option String
  description : Option String
  deriving DecidableEq, Repr

/-- A parsed schema descriptor: optional `description`, `primaryKey` as its
list of `columnName`s (default `[]`), and the ordered `columns` list
(default `[]`). -/
structure Schema where
  description : Option String
  primaryKey : List String
  columns : List ColDescr
  deriving DecidableEq, Repr

/-- State of the descriptor file for one table, as seen by `load_schema`
(lines 46-51): missing or zero-byte, present but failing `json.load`, or
parsed. -/
inductive SchemaFile where
  | absent
  | malformed
  | parsed (s : Schema)
  deriving Repr

/-- The exception raised by `json.load` on a malformed descriptor. -/
def jsonParseError : String := "json.decoder.JSONDecodeError"

/-- `load_schema` (lines 46-51): returns `none` for a missing or empty file,
raises (models as `Except.error`) when `json.load` fails, and otherwise
returns the parsed schema. -/
def load_schema : SchemaFile → Except String (Option Schema)
  | SchemaFile.absent => Except.ok none
  | SchemaFile.malformed => Except.error jsonParseError
  | SchemaFile.parsed s => Except.ok (some s)

/-- The column loop of `create_table` (lines 59-68): builds, for the
enumeration index `i`, the per-column DDL lines and the accumulated
`col_names` list.  `total` is `len(columns)` and `pkEmpty` is
`not pk_cols`. -/
def ctLoop (total : Nat) (pkEmpty : Bool) : Nat → List ColDescr → List String × List String
  | _, [] => ([], [])
  | i, col :: rest =>
    let ctype := typeMapGet (pyStrip (col.type.getD ""))
    let comma := if i = total - 1 ∧ pkEmpty = true then "" else ","
    let d := "  \"" ++ col.name ++ "\" " ++ ctype ++ comma ++ " -- " ++ esc (col.description.getD "")
    (d :: (ctLoop total pkEmpty (i + 1) rest).1, col.name :: (ctLoop total pkEmpty (i + 1) rest).2)

/-- The `(col_defs, col_names)` pair produced by `create_table`'s loop. -/
def create_table_defs (s : Schema) : List String × List String :=
  ctLoop s.columns.length s.primaryKey.isEmpty 0 s.columns

/-- `create_table` (lines 54-77): produces the CREATE TABLE statement text
and returns the authoritative column list.  The `DROP TABLE` /
`executescript` side effect is modelled separately by the `createFails`
oracle of `TableInput`. -/
def create_table (name : String) (s : Schema) : String × List String :=
  let desc := esc (s.description.getD "")
  let colDefs := (create_table_defs s).1
  let colNames := (create_table_defs s).2
  let body := String.intercalate "\n" colDefs
  let pk :=
    if s.primaryKey.isEmpty then ""
    else ",\n  PRIMARY KEY (" ++
      String.intercalate ", " (s.primaryKey.map (fun c => "\"" ++ c ++ "\"")) ++ ")"
  ("CREATE TABLE \"" ++ name ++ "\" ( -- " ++ desc ++ "\n" ++ body ++ pk ++ "\n);", colNames)

/-- The fallback column definitions of `create_table_from_header`
(line 81): every header column as TEXT, in header order. -/
def header_col_defs (header : List String) : List String :=
  header.map (fun h => "\"" ++ h ++ "\" TEXT")

/-- `create_table_from_header` (lines 80-84): fallback DDL from the file
header alone; returns `list(header)`. -/
def create_table_from_header (name : String) (header : List String) : String × List String :=
  ("CREATE TABLE \"" ++ name ++ "\" (" ++ String.intercalate ", " (header_col_defs header) ++ ")",
   header)

/-- A value passed to sqlite: NULL, a Python int, a Python float (modelled
exactly), or text. -/
inductive Value where
  | null
  | int (n : Int)
  | real (q : ℚ)
  | text (s : String)
  deriving DecidableEq, Repr

/-- `coerce` (lines 104-124), translated clause by clause.  `none` models a
`None` cell (a short row in `csv.DictReader`). -/
def coerce (value : Option String) (col_type : String) : Value :=
  match value with
  | none => Value.null
  | some raw =>
    if pyStrip raw = "" then Value.null
    else
      let v := pyStrip raw
      if col_type = "INTEGER" then
        match pyIntParse v with
        | some n => Value.int n
        | none =>
          match pyFloatParse v with
          | some (PyFloat.finite q) => Value.int (ratTrunc q)
          | _ => Value.text v
      else if col_type = "NUMERIC" ∨ col_type = "REAL" then
        match pyFloatParse v with
        | some (PyFloat.finite q) =>
          if q = ((ratTrunc q : Int) : ℚ) ∧ v.toList.contains '.' = false then
            Value.int (ratTrunc q)
          else Value.real q
        | _ => Value.text v
      else Value.text v

/-! ### The main loop (lines 127-198), per-table model -/

/-- One row as produced by `load_tsv_rows`: a mapping from column name to an
optional raw value (`none` models a `None` cell). -/
abbrev Row := List (String × Option String)

/-- `row.get(col, '')` at line 178: the empty string when the key is absent,
otherwise the stored (possibly `None`) value. -/
def rowGet (row : Row) (col : String) : Option String :=
  match row.lookup col with
  | none => some ""
  | some v => v

/-- The `col_types` dict built at lines 152-155, as a total function with
the `.get(col, 'TEXT')` default of line 179.  Later duplicate column names
override earlier ones, like Python dict assignment. -/
def colTypesOf (s : Schema) : String → String := fun c =>
  match s.columns.reverse.find? (fun col => col.name == c) with
  | some col => typeMapGet (pyStrip (col.type.getD ""))
  | none => "TEXT"

/-- The tuple built for one row at lines 176-180: positional over
`schema_cols`. -/
def buildValues (schemaCols : List String) (colTypes : String → String) (row : Row) : List Value :=
  schemaCols.map (fun c => coerce (rowGet row c) (colTypes c))

/-- The row-at-a-time fallback loop (lines 188-195).  `rowOk` is the oracle
for whether `conn.execute` succeeds on a tuple; `i` is the enumeration
index and `inserted` the running success count.  An error is itemized only
under the source's `inserted == 0 and i == 0` condition; the exception text
appended by the f-string is abstracted away. -/
def fallbackLoop (rowOk : List Value → Bool) (name : String) :
    List (List Value) → Nat → Nat → List String → Nat × List String
  | [], _, inserted, errs => (inserted, errs)
  | values :: rest, i, inserted, errs =>
    if rowOk values then fallbackLoop rowOk name rest (i + 1) (inserted + 1) errs
    else
      fallbackLoop rowOk name rest (i + 1) inserted
        (if inserted = 0 ∧ i = 0 then errs ++ [name ++ ": INSERT row 0"] else errs)

/-- The whole fallback pass over a batch, started like the source with
`inserted = 0` and enumeration from 0. -/
def fallbackInsert (name : String) (rowOk : List Value → Bool) (batch : List (List Value)) :
    Nat × List String :=
  fallbackLoop rowOk name batch 0 0 []

/-- Everything the main loop consumes for one TSV file.  `header` and
`rows` are the result of `load_tsv_rows`; `createFails` is the oracle for
the `try` at lines 157-164 (sqlite DDL execution and `col['name']`
lookups); `bulkOk` for `conn.executemany` at line 184; `rowOk` for the
per-row `conn.execute` at line 191. -/
structure TableInput where
  fileName : String
  schemaFile : SchemaFile
  header : List String
  rows : List Row
  createFails : Bool
  bulkOk : Bool
  rowOk : List Value → Bool

/-- The run-level accumulators of `main`: `tables_ok`, `total_rows`,
`errors`. -/
structure RunState where
  tablesOk : Nat
  totalRows : Nat
  errors : List String
  deriving DecidableEq, Repr

/-- `tsv_file.replace('.tsv', '')` at line 143. -/
def tableName (f : String) : String := pyReplaceS f ".tsv" ""

/-- The body of the `for tsv_file in tsv_files` loop (lines 142-198) for a
single file, threading the run-level accumulators.  `load_schema` sits
outside every `try`, so its parse failure propagates as `Except.error`. -/
def processTable (st : RunState) (t : TableInput) : Except String RunState :=
  match load_schema t.schemaFile with
  | Except.error e => Except.error e
  | Except.ok schema =>
    let name := tableName t.fileName
    if t.header = [] then
      Except.ok { st with errors := st.errors ++ [name ++ ": empty TSV"] }
    else if t.createFails then
      Except.ok { st with errors := st.errors ++ [name ++ ": CREATE failed"] }
    else
      let colTypes : String → String :=
        match schema with
        | some s => colTypesOf s
        | none => fun _ => "TEXT"
      let schemaCols : List String :=
        match schema with
        | some s => (create_table name s).2
        | none => (create_table_from_header name t.header).2
      if t.rows = [] then
        Except.ok { st with tablesOk := st.tablesOk + 1 }
      else
        let batch := t.rows.map (fun row => buildValues schemaCols colTypes row)
        if t.bulkOk then
          Except.ok { st with totalRows := st.totalRows + batch.length,
                              tablesOk := st.tablesOk + 1 }
        else
          let r := fallbackInsert name t.rowOk batch
          Except.ok { st with totalRows := st.totalRows + r.1,
                              tablesOk := st.tablesOk + (if 0 < r.1 then 1 else 0),
                              errors := st.errors ++ r.2 }

/-- Runs the remaining files from a given accumulator state; an uncaught
exception in `processTable` aborts everything after it, like an exception
escaping the `for` loop of `main`. -/
def runFrom : RunState → List TableInput → Except String RunState
  | st, [] => Except.ok st
  | st, t :: rest =>
    match processTable st t with
    | Except.error e => Except.error e
    | Except.ok st' => runFrom st' rest

/-- The accumulators as initialized at lines 138-140. -/
def initState : RunState := { tablesOk := 0, totalRows := 0, errors := [] }

/-- The whole run of `main` over the discovered TSV files. -/
def runLoad (tables : List TableInput) : Except String RunState :=
  runFrom initState tables

/-- The number of rows `main` successfully inserts for one table, mirroring
the branches of `processTable`. -/
def tableInserted (t : TableInput) : Nat :=
  match load_schema t.schemaFile with
  | Except.error _ => 0
  | Except.ok schema =>
    if t.header = [] then 0
    else if t.createFails then 0
    else
      let colTypes : String → String :=
        match schema with
        | some s => colTypesOf s
        | none => fun _ => "TEXT"
      let schemaCols : List String :=
        match schema with
        | some s => (create_table (tableName t.fileName) s).2
        | none => (create_table_from_header (tableName t.fileName) t.header).2
      if t.rows = [] then 0
      else
        let batch := t.rows.map (fun row => buildValues schemaCols colTypes row)
        if t.bulkOk then batch.length
        else (fallbackInsert (tableName t.fileName) t.rowOk batch).1

/-! ### Concrete inputs used by counterexamples and witnesses -/

/-- A healthy table: no descriptor, one column, one row, all inserts
succeed. -/
def demoOk : TableInput :=
  { fileName := "GOOD.tsv", schemaFile := SchemaFile.absent, header := ["A"],
    rows := [[("A", some "1")]], createFails := false, bulkOk := true, rowOk := fun _ => true }

/-- A table whose descriptor file is present but fails to parse. -/
def demoMalformed : TableInput :=
  { fileName := "BAD.tsv", schemaFile := SchemaFile.malformed, header := ["A"],
    rows := [], createFails := false, bulkOk := true, rowOk := fun _ => true }

/-- A per-row insert oracle that accepts exactly the tuple `[1]`. -/
def demoRowOk : List Value → Bool := fun v => decide (v = [Value.int 1])

/-- A two-column schema descriptor used by witnesses. -/
def demoSchema : Schema :=
  { description := some "demo", primaryKey := ["ID"],
    columns := [{ name := "ID", type := some "INTEGER", description := none },
                { name := "NAME", type := some "VARCHAR", description := some "the name" }] }

/-- A row that has the descriptor column `ID`, lacks `NAME`, and carries an
extra column `EXTRA` that no descriptor mentions. -/
def demoRow : Row := [("ID", some "7"), ("EXTRA", some "x")]

/-! ### Helper lemmas -/

/-- Truncation of an integral rational is its numerator. -/
theorem ratTrunc_den_one {q : ℚ} (h : q.den = 1) : ratTrunc q = q.num := by
  unfold ratTrunc
  rw [h]
  simp

/-- The source test `f == int(f)` holds exactly for mathematically integral
values. -/
theorem rat_eq_trunc_iff (q : ℚ) : q = ((ratTrunc q : Int) : ℚ) ↔ q.den = 1 := by
  constructor
  · intro h
    rw [h]
    exact Rat.den_intCast _
  · intro h
    rw [ratTrunc_den_one h]
    exact ((Rat.den_eq_one_iff q).mp h).symm

/-- Coercing the empty string yields NULL for every type. -/
theorem coerce_empty (ct : String) : coerce (some "") ct = Value.null := by
  have h : pyStrip "" = "" := by decide
  simp [coerce, h]

/-- A key bound to none of an association list's entries looks up to
nothing. -/
theorem lookup_none_of_forall {β : Type} {l : List (String × β)} {k : String}
    (h : ∀ p ∈ l, k ≠ p.1) : l.lookup k = none := by
  induction l with
  | nil => rfl
  | cons p rest ih =>
    cases p with
    | mk a b =>
      have hb : (k == a) = false := beq_eq_false_iff_ne.mpr (h (a, b) (by simp))
      simp only [List.lookup, hb]
      exact ih (fun p hp => h p (by simp [hp]))

/-- Once the fallback loop is past index 0 it only counts: it never appends
another error. -/
theorem fallbackLoop_past (rowOk : List Value → Bool) (name : String) :
    ∀ (l : List (List Value)) (i ins : Nat) (errs : List String), i ≠ 0 →
      fallbackLoop rowOk name l i ins errs = (ins + (l.filter rowOk).length, errs) := by
  intro l
  induction l with
  | nil => intro i ins errs _; simp [fallbackLoop]
  | cons v rest ih =>
    intro i ins errs hi
    by_cases hv : rowOk v = true
    · rw [fallbackLoop, if_pos hv, ih (i + 1) (ins + 1) errs (by omega)]
      simp [List.filter_cons, hv]
      omega
    · rw [fallbackLoop, if_neg (by simp [hv]),
        if_neg (by intro hc; exact hi hc.2), ih (i + 1) ins errs (by omega)]
      simp [List.filter_cons, hv]

/-! ### Claims -/

/-- C5: `coerce` is total — it is a Lean function, mirroring that every
exception path in the source is caught — and an absent cell or one whose
text strips to empty coerces to NULL for every declared type category. -/
theorem c5_coerce_total_empty_null :
    (∀ ct, coerce none ct = Value.null) ∧
    (∀ s ct, pyStrip s = "" → coerce (some s) ct = Value.null) := by
  refine ⟨fun ct => rfl, fun s ct h => ?_⟩
  simp [coerce, h]

/-- C5 witness: the empty cell coerces to NULL at the INTEGER category. -/
theorem c5_witness : coerce (some "") "INTEGER" = Value.null :=
  c5_coerce_total_empty_null.2 "" "INTEGER" (by decide)

/-- C6: the type mapper sends the eight known labels to their documented
categories and every other label, the empty one included, to TEXT; being a
total function it never fails. -/
theorem c6_type_map :
    typeMapGet "VARCHAR" = "TEXT" ∧ typeMapGet "NUMERIC" = "NUMERIC" ∧
    typeMapGet "INTEGER" = "INTEGER" ∧ typeMapGet "FLOAT" = "REAL" ∧
    typeMapGet "DATETIME" = "TEXT" ∧ typeMapGet "DATETIME (Local)" = "TEXT" ∧
    typeMapGet "DATETIME (UTC)" = "TEXT" ∧ typeMapGet "DATETIME (Attached)" = "TEXT" ∧
    (∀ l : String,
      l ∉ ["VARCHAR", "NUMERIC", "INTEGER", "FLOAT", "DATETIME",
           "DATETIME (Local)", "DATETIME (UTC)", "DATETIME (Attached)"] →
      typeMapGet l = "TEXT") := by
  refine ⟨rfl, rfl, rfl, rfl, rfl, rfl, rfl, rfl, ?_⟩
  intro l hl
  simp only [List.mem_cons, List.not_mem_nil, or_false, not_or] at hl
  obtain ⟨h1, h2, h3, h4, h5, h6, h7, h8⟩ := hl
  have hnone : TYPE_MAP.lookup l = none := by
    refine lookup_none_of_forall ?_
    intro p hp
    simp only [TYPE_MAP, List.mem_cons, List.not_mem_nil, or_false] at hp
    rcases hp with h | h | h | h | h | h | h | h <;> subst h <;> assumption
  simp [typeMapGet, hnone]

/-- C6 witness: an unrecognized label maps to TEXT. -/
theorem c6_witness : typeMapGet "" = "TEXT" :=
  c6_type_map.2.2.2.2.2.2.2.2 "" (by decide)

/-- C4: for an INTEGER column, `coerce` strips, then tries a base-10
integer parse, then a float parse truncated to an integer, and otherwise
passes the stripped text through; `coerce("  42  ", INTEGER)` is the
integer 42 and `coerce("abc", INTEGER)` is the text `abc`. -/
theorem c4_coerce_integer :
    (∀ s n, pyStrip s ≠ "" → pyIntParse (pyStrip s) = some n →
      coerce (some s) "INTEGER" = Value.int n) ∧
    (∀ s q, pyStrip s ≠ "" → pyIntParse (pyStrip s) = none →
      pyFloatParse (pyStrip s) = some (PyFloat.finite q) →
      coerce (some s) "INTEGER" = Value.int (ratTrunc q)) ∧
    (∀ s, pyStrip s ≠ "" → pyIntParse (pyStrip s) = none →
      pyFloatParse (pyStrip s) = none →
      coerce (some s) "INTEGER" = Value.text (pyStrip s)) ∧
    coerce (some "  42  ") "INTEGER" = Value.int 42 ∧
    coerce (some "abc") "INTEGER" = Value.text "abc" := by
  refine ⟨?_, ?_, ?_, by decide, by decide⟩
  · intro s n hne hn
    simp [coerce, hne, hn]
  · intro s q hne hi hf
    simp [coerce, hne, hi, hf]
  · intro s hne hi hf
    simp [coerce, hne, hi, hf]

/-- C4 witness: the float-then-truncate fallback at input `7.9`. -/
theorem c4_witness : coerce (some "7.9") "INTEGER" = Value.int (ratTrunc (mkRat 79 10)) :=
  c4_coerce_integer.2.1 "7.9" (mkRat 79 10) (by decide) (by decide) (by decide)

/-- C2 counterexample: the claim's example `coerce("3.0", NUMERIC) = integer 3`
is false — the text `3.0` contains a decimal point, so the source's
`'.' not in value` guard fails and the parsed float 3.0 is returned, not
the integer 3. -/
theorem c2_cex :
    coerce (some "3.0") "NUMERIC" = Value.real 3 ∧
    coerce (some "3.0") "NUMERIC" ≠ Value.int 3 := by decide

/-- C2 amended: for a NUMERIC or REAL column, `coerce` parses the trimmed
cell as a float; when the parsed value is integral and the trimmed text
contains no decimal point it returns the value as an integer, otherwise
the float; on parse failure it returns the trimmed text.  In particular
`coerce("3.0", NUMERIC)` is the float 3.0 (its text has a decimal point),
`coerce("3", NUMERIC)` is the integer 3, and `coerce("3.50", NUMERIC)` is
the float 3.5. -/
theorem c2_coerce_numeric :
    (∀ s q, pyStrip s ≠ "" → pyFloatParse (pyStrip s) = some (PyFloat.finite q) →
      coerce (some s) "NUMERIC" =
        if q.den = 1 ∧ (pyStrip s).toList.contains '.' = false
        then Value.int q.num else Value.real q) ∧
    (∀ s, pyStrip s ≠ "" → pyFloatParse (pyStrip s) = none →
      coerce (some s) "NUMERIC" = Value.text (pyStrip s)) ∧
    coerce (some "3.0") "NUMERIC" = Value.real 3 ∧
    coerce (some "3") "NUMERIC" = Value.int 3 ∧
    coerce (some "3.50") "NUMERIC" = Value.real (mkRat 7 2) ∧
    (∀ s, coerce (some s) "REAL" = coerce (some s) "NUMERIC") := by
  refine ⟨?_, ?_, by decide, by decide, by decide, ?_⟩
  · intro s q hne hq
    simp only [coerce]
    rw [if_neg hne]
    simp only [hq]
    rw [if_neg (by decide), if_pos (Or.inl trivial)]
    by_cases hd : q.den = 1
    · by_cases hc : (pyStrip s).toList.contains '.' = false
      · rw [if_pos ⟨(rat_eq_trunc_iff q).mpr hd, hc⟩, if_pos ⟨hd, hc⟩, ratTrunc_den_one hd]
      · rw [if_neg (fun hx => hc hx.2), if_neg (fun hx => hc hx.2)]
    · rw [if_neg (fun hx => hd ((rat_eq_trunc_iff q).mp hx.1)),
        if_neg (fun hx => hd hx.1)]
  · intro s hne hq
    simp [coerce, hne, hq]
  · intro s
    by_cases h : pyStrip s = ""
    · simp [coerce, h]
    · simp only [coerce]
      rw [if_neg h, if_neg h, if_neg (by decide : ¬("REAL" = "INTEGER")),
        if_pos (Or.inr trivial), if_neg (by decide : ¬("NUMERIC" = "INTEGER")),
        if_pos (Or.inl trivial)]

/-- C2 witness: the integral, no-decimal-point branch at input `12`. -/
theorem c2_witness :
    coerce (some "12") "NUMERIC" =
      if (mkRat 12 1).den = 1 ∧ (pyStrip "12").toList.contains '.' = false
      then Value.int (mkRat 12 1).num else Value.real (mkRat 12 1) :=
  c2_coerce_numeric.1 "12" (mkRat 12 1) (by decide) (by decide)

/-- C3 counterexample: in a batch whose first row inserts fine and whose
second row fails, the fallback records no error at all — contradicting the
claim that the first failing row's error is recorded; the source only
itemizes a failure of row index 0. -/
theorem c3_cex :
    demoRowOk [Value.int 2] = false ∧
    fallbackInsert "T" demoRowOk [[Value.int 1], [Value.int 2]] = (1, []) := by decide

/-- C3 amended: the fallback inserts rows one at a time, continuing past
failures; the inserted count is the number of rows the oracle accepts, and
an itemized error is recorded exactly when the very first row of the batch
fails — every other failing row is counted against the totals but produces
no error entry. -/
theorem c3_fallback :
    ∀ (rowOk : List Value → Bool) (name : String) (v : List Value)
      (rest : List (List Value)),
      (fallbackInsert name rowOk (v :: rest)).1 = ((v :: rest).filter rowOk).length ∧
      (fallbackInsert name rowOk (v :: rest)).2 =
        if rowOk v then [] else [name ++ ": INSERT row 0"] := by
  intro rowOk name v rest
  unfold fallbackInsert
  by_cases hv : rowOk v = true
  · rw [fallbackLoop, if_pos hv, fallbackLoop_past rowOk name rest 1 1 [] (by omega)]
    simp [List.filter_cons, hv]
    omega
  · rw [fallbackLoop, if_neg (by simp [hv]), if_pos ⟨rfl, rfl⟩,
      fallbackLoop_past rowOk name rest 1 0 _ (by omega)]
    simp [List.filter_cons, hv]

/-- The `col_names` accumulated by `create_table`'s loop are the schema's
column names in schema order, whatever the enumeration start index. -/
theorem ctLoop_snd (t : Nat) (p : Bool) :
    ∀ (cols : List ColDescr) (i : Nat), (ctLoop t p i cols).2 = cols.map ColDescr.name := by
  intro cols
  induction cols with
  | nil => intro i; simp [ctLoop]
  | cons c cols ih => intro i; simp [ctLoop, ih (i + 1)]

/-- The loop emits one DDL line per column. -/
theorem ctLoop_len (t : Nat) (p : Bool) :
    ∀ (cols : List ColDescr) (i : Nat), (ctLoop t p i cols).1.length = cols.length := by
  intro cols
  induction cols with
  | nil => intro i; simp [ctLoop]
  | cons c cols ih => intro i; simp [ctLoop, ih (i + 1)]

/-- The j-th DDL line of the loop opens with the quoted name and the mapped
type of the j-th schema column: the DDL lists columns in schema order. -/
theorem ctLoop_get (t : Nat) (p : Bool) :
    ∀ (cols : List ColDescr) (i j : Nat) (col : ColDescr), cols[j]? = some col →
      ∃ rest, (ctLoop t p i cols).1[j]? =
        some ("  \"" ++ col.name ++ "\" " ++ typeMapGet (pyStrip (col.type.getD "")) ++ rest) := by
  intro cols
  induction cols with
  | nil => intro i j col h; simp at h
  | cons c cols ih =>
    intro i j col h
    match j with
    | 0 =>
      obtain rfl : c = col := by simpa using h
      exact ⟨(if i = t - 1 ∧ p = true then "" else ",") ++ " -- " ++ esc (c.description.getD ""),
        by simp [ctLoop, String.append_assoc]⟩
    | j + 1 =>
      have hx := ih (i + 1) j col (by simpa using h)
      simpa [ctLoop] using hx

/-- C7: in schema-driven mode the authoritative column list returned by
`create_table` is exactly the descriptor's column names in declared order,
and the j-th generated DDL line opens with the j-th column's quoted name
and mapped type; in fallback mode `create_table_from_header` returns the
header verbatim and its j-th column definition is the j-th header name
typed TEXT (and its DDL is built with no PRIMARY KEY clause). -/
theorem c7_column_lists :
    (∀ (name : String) (s : Schema), (create_table name s).2 = s.columns.map ColDescr.name) ∧
    (∀ (s : Schema) (j : Nat) (col : ColDescr), s.columns[j]? = some col →
      ∃ rest, (create_table_defs s).1[j]? =
        some ("  \"" ++ col.name ++ "\" " ++ typeMapGet (pyStrip (col.type.getD "")) ++ rest)) ∧
    (∀ (name : String) (header : List String), (create_table_from_header name header).2 = header) ∧
    (∀ (header : List String) (j : Nat) (h : String), header[j]? = some h →
      (header_col_defs header)[j]? = some ("\"" ++ h ++ "\" TEXT")) := by
  refine ⟨?_, ?_, fun name header => rfl, ?_⟩
  · intro name s
    exact ctLoop_snd s.columns.length s.primaryKey.isEmpty s.columns 0
  · intro s j col h
    exact ctLoop_get s.columns.length s.primaryKey.isEmpty s.columns 0 j col h
  · intro header j h hh
    simp [header_col_defs, hh]

/-- C7 witness: fallback column definitions at a concrete header. -/
theorem c7_witness :
    (header_col_defs ["A", "B"])[1]? = some ("\"" ++ "B" ++ "\" TEXT") :=
  c7_column_lists.2.2.2 ["A", "B"] 1 "B" (by decide)

/-- C10: the inserted tuple is built positionally from the descriptor's
column list alone — it has one entry per descriptor column, it is unchanged
by any row columns outside the descriptor's list, and a descriptor column
absent from the row's mapping contributes NULL (its raw value defaults to
the empty string, which coerces to NULL). -/
theorem c10_positional (s : Schema) (row row2 : Row) :
    (buildValues (s.columns.map ColDescr.name) (colTypesOf s) row).length = s.columns.length ∧
    ((∀ c, c ∈ s.columns.map ColDescr.name → rowGet row c = rowGet row2 c) →
      buildValues (s.columns.map ColDescr.name) (colTypesOf s) row =
        buildValues (s.columns.map ColDescr.name) (colTypesOf s) row2) ∧
    (∀ (j : Nat) (col : ColDescr), s.columns[j]? = some col → row.lookup col.name = none →
      (buildValues (s.columns.map ColDescr.name) (colTypesOf s) row)[j]? = some Value.null) := by
  refine ⟨by simp [buildValues], ?_, ?_⟩
  · intro hagree
    unfold buildValues
    exact List.map_congr_left (fun c hc => by rw [hagree c hc])
  · intro j col hj hlk
    have h1 : (s.columns.map ColDescr.name)[j]? = some col.name := by
      simp [hj]
    have hget : rowGet row col.name = some "" := by simp [rowGet, hlk]
    unfold buildValues
    rw [List.getElem?_map, h1]
    simp [hget, coerce_empty]

/-- C10 witness: at the demo schema, the `NAME` column missing from the row
is inserted as NULL. -/
theorem c10_witness :
    (buildValues (demoSchema.columns.map ColDescr.name) (colTypesOf demoSchema) demoRow)[1]? =
      some Value.null :=
  (c10_positional demoSchema demoRow demoRow).2.2 1
    { name := "NAME", type := some "VARCHAR", description := some "the name" }
    (by decide) (by decide)

/-- The replacement worker maps the empty list to itself at any fuel. -/
theorem replFuel_nil (pat rep : List Char) (f : Nat) : replFuel pat rep f [] = [] := by
  cases f <;> rfl

/-- The pattern `.tsv` cannot match across the boundary of `s ++ ".tsv"`:
a match starting inside `s` that uses appended characters would force one
of `t`, `s`, `v` to equal `.`, which is impossible. -/
theorem tsvNoCross (c : Char) (rest : List Char)
    (h : List.isPrefixOf ['.', 't', 's', 'v'] (c :: (rest ++ ['.', 't', 's', 'v'])) = true) :
    List.isPrefixOf ['.', 't', 's', 'v'] (c :: rest) = true := by
  match rest with
  | [] => simp [List.isPrefixOf] at h
  | [r1] => simp [List.isPrefixOf] at h
  | [r1, r2] => simp [List.isPrefixOf] at h
  | r1 :: r2 :: r3 :: rest2 =>
    simp only [List.isPrefixOf, Bool.and_eq_true, beq_iff_eq] at h ⊢
    exact ⟨h.1, h.2.1, h.2.2.1, h.2.2.2.1, trivial⟩

/-- Removing `.tsv` occurrences from `s ++ ".tsv"` yields `s` whenever `s`
itself contains no `.tsv` occurrence. -/
theorem replFuel_append_tsv :
    ∀ (s : List Char) (fuel : Nat), hasSubstr ['.', 't', 's', 'v'] s = false →
      s.length + 4 ≤ fuel →
      replFuel ['.', 't', 's', 'v'] [] fuel (s ++ ['.', 't', 's', 'v']) = s := by
  intro s
  induction s with
  | nil =>
    intro fuel h hf
    match fuel, hf with
    | f + 1, _ => simp [replFuel, replFuel_nil, List.isPrefixOf]
  | cons c s ih =>
    intro fuel h hf
    obtain ⟨h1, h2⟩ : List.isPrefixOf ['.', 't', 's', 'v'] (c :: s) = false ∧
        hasSubstr ['.', 't', 's', 'v'] s = false := by
      simpa [hasSubstr] using h
    match fuel, hf with
    | f + 1, hf =>
      have hcross : List.isPrefixOf ['.', 't', 's', 'v'] (c :: (s ++ ['.', 't', 's', 'v'])) = false := by
        cases hx : List.isPrefixOf ['.', 't', 's', 'v'] (c :: (s ++ ['.', 't', 's', 'v'])) with
        | false => rfl
        | true => exact absurd (tsvNoCross c s hx) (by simp [h1])
      rw [show (c :: s) ++ ['.', 't', 's', 'v'] = c :: (s ++ ['.', 't', 's', 'v']) from rfl,
        replFuel, if_neg (by simp [hcross]), ih f h2 (by simpa using Nat.le_of_succ_le_succ hf)]

/-- C8 counterexample: the table name is the file name with every
occurrence of `.tsv` removed, not just the suffix — the file `A.tsv.tsv`
has base name `A.tsv` but its table is named `A`. -/
theorem c8_cex : tableName ("A.tsv" ++ ".tsv") = "A" ∧ ("A" : String) ≠ "A.tsv" := by decide

/-- C8 amended: the destination table name is the source file name with
every occurrence of `.tsv` removed; for every file `<NAME>.tsv` whose base
name contains no `.tsv` occurrence — true of every real export name, e.g.
`PATIENT_2` — this equals the base name verbatim, case and underscores
preserved. -/
theorem c8_table_name (n : String) (h : hasSubstr ['.', 't', 's', 'v'] n.toList = false) :
    tableName (n ++ ".tsv") = n := by
  unfold tableName pyReplaceS listReplace
  have hp : ".tsv".toList = ['.', 't', 's', 'v'] := by decide
  have hr : "".toList = ([] : List Char) := rfl
  have hdata : (n ++ ".tsv").toList = n.toList ++ ['.', 't', 's', 'v'] := by
    simp [String.toList, String.data_append]
  rw [hp, hr, hdata, replFuel_append_tsv n.toList (n.toList ++ ['.', 't', 's', 'v']).length h
    (by simp)]
  rfl

/-- C8 witness: `PATIENT_2.tsv` keeps its base name `PATIENT_2` verbatim. -/
theorem c8_witness : tableName ("PATIENT_2" ++ ".tsv") = "PATIENT_2" :=
  c8_table_name "PATIENT_2" (by decide)

/-- A table that the loop finishes adds exactly its own inserted-row count
to `total_rows` and at most one to `tables_ok`. -/
theorem processTable_ok {st st' : RunState} {t : TableInput}
    (h : processTable st t = Except.ok st') :
    st'.totalRows = st.totalRows + tableInserted t ∧ st'.tablesOk ≤ st.tablesOk + 1 := by
  cases hls : load_schema t.schemaFile with
  | error e =>
    simp only [processTable, hls] at h
    exact absurd h (by simp)
  | ok schema =>
    simp only [processTable, hls] at h
    simp only [tableInserted, hls]
    by_cases h1 : t.header = []
    · rw [if_pos h1] at h
      rw [if_pos h1]
      simp only [Except.ok.injEq] at h
      subst h
      simp
    · rw [if_neg h1] at h
      rw [if_neg h1]
      by_cases h2 : t.createFails = true
      · rw [if_pos h2] at h
        rw [if_pos h2]
        simp only [Except.ok.injEq] at h
        subst h
        simp
      · rw [if_neg h2] at h
        rw [if_neg h2]
        by_cases h3 : t.rows = []
        · rw [if_pos h3] at h
          rw [if_pos h3]
          simp only [Except.ok.injEq] at h
          subst h
          simp
        · rw [if_neg h3] at h
          rw [if_neg h3]
          by_cases h4 : t.bulkOk = true
          · rw [if_pos h4] at h
            rw [if_pos h4]
            simp only [Except.ok.injEq] at h
            subst h
            simp
          · rw [if_neg h4] at h
            rw [if_neg h4]
            simp only [Except.ok.injEq] at h
            subst h
            refine ⟨by simp, ?_⟩
            by_cases h5 : 0 <
                (fallbackInsert (tableName t.fileName) t.rowOk
                  (t.rows.map (fun row => buildValues
                    (match schema with
                     | some s => (create_table (tableName t.fileName) s).2
                     | none => (create_table_from_header (tableName t.fileName) t.header).2)
                    (match schema with
                     | some s => colTypesOf s
                     | none => fun _ => "TEXT") row))).1 <;>
              simp [h5]

/-- Folding the loop over a file list accumulates per-table inserted counts
and bounds `tables_ok` by the number of files handled. -/
theorem runFrom_ok :
    ∀ (ts : List TableInput) (st st' : RunState), runFrom st ts = Except.ok st' →
      st'.totalRows = st.totalRows + (ts.map tableInserted).sum ∧
      st'.tablesOk ≤ st.tablesOk + ts.length := by
  intro ts
  induction ts with
  | nil =>
    intro st st' h
    simp only [runFrom, Except.ok.injEq] at h
    subst h
    simp
  | cons t ts ih =>
    intro st st' h
    simp only [runFrom] at h
    cases hp : processTable st t with
    | error e => rw [hp] at h; simp at h
    | ok st1 =>
      rw [hp] at h
      obtain ⟨e1, e2⟩ := processTable_ok hp
      obtain ⟨f1, f2⟩ := ih st1 st' h
      constructor
      · rw [f1, e1]
        simp
        omega
      · simp only [List.length_cons]
        omega

/-- C9: whenever a run completes, the reported `total_rows` equals the sum
over all tables of that table's successfully inserted row count, and
`tables_ok` never exceeds the number of discovered source files. -/
theorem c9_run_totals (tables : List TableInput) (st : RunState)
    (h : runLoad tables = Except.ok st) :
    st.totalRows = (tables.map tableInserted).sum ∧ st.tablesOk ≤ tables.length := by
  have hx := runFrom_ok tables initState st h
  simpa [initState] using hx

/-- C9 witness: a one-file run reporting one row and one table OK. -/
theorem c9_witness :
    ({ tablesOk := 1, totalRows := 1, errors := [] } : RunState).totalRows
        = ([demoOk].map tableInserted).sum ∧
    ({ tablesOk := 1, totalRows := 1, errors := [] } : RunState).tablesOk ≤ [demoOk].length :=
  c9_run_totals [demoOk] { tablesOk := 1, totalRows := 1, errors := [] } rfl

/-- C1 counterexample: with a malformed descriptor for the first table the
whole run aborts with the uncaught JSON parse error — no entry reaches the
run-level error list and the second, healthy table is never processed,
contrary to the claimed catch-at-the-table-boundary behaviour. -/
theorem c1_cex : runLoad [demoMalformed, demoOk] = Except.error jsonParseError := rfl

/-- C1 amended: a present-but-malformed schema descriptor is the one
per-table failure that is NOT caught at the table boundary: `load_schema`
sits outside the per-table `try`, so the parse error aborts the whole run,
recording nothing.  By contrast a table-creation failure (with any
parseable or absent descriptor and a nonempty header) is caught: it is
recorded in the run-level error list and the run continues with the
remaining tables. -/
theorem c1_schema_error_aborts (st : RunState) (t : TableInput) (rest : List TableInput)
    (hm : t.schemaFile = SchemaFile.malformed) :
    runFrom st (t :: rest) = Except.error jsonParseError ∧
    (∀ (st0 : RunState) (u : TableInput), u.schemaFile ≠ SchemaFile.malformed →
      u.header ≠ [] → u.createFails = true →
      runFrom st0 (u :: rest) =
        runFrom { st0 with
          errors := st0.errors ++ [tableName u.fileName ++ ": CREATE failed"] } rest) := by
  constructor
  · have hpt : processTable st t = Except.error jsonParseError := by
      simp [processTable, hm, load_schema]
    simp [runFrom, hpt]
  · intro st0 u hu h1 h2
    have hpt : processTable st0 u = Except.ok
        { st0 with errors := st0.errors ++ [tableName u.fileName ++ ": CREATE failed"] } := by
      cases hsf : u.schemaFile with
      | malformed => exact absurd hsf hu
      | absent => simp [processTable, hsf, load_schema, h1, h2]
      | parsed s => simp [processTable, hsf, load_schema, h1, h2]
    simp [runFrom, hpt]

/-- C1 witness: the abort at a concrete one-file run whose descriptor is
malformed. -/
theorem c1_witness : runFrom initState [demoMalformed] = Except.error jsonParseError :=
  (c1_schema_error_aborts initState demoMalformed [] rfl).1

end LoadSqlite
